import Mathlib

/-!
Verification of the permit-workflow logic of this repository against its
natural-language specification.  The definitions below are shallow embeddings
of the handlers in the source files (`IntentRegistrationNew.tsx`,
`UserManagement.tsx`, `PublicDashboard.tsx`, the `DocumentManagement`
component): machine dates and timestamps are modelled as integers, the remote
record store as explicit list-valued state, fallible store calls as explicit
success flags, and toasts/logs as explicit output lists.  Helpers of the
`useDocuments` hook, whose source file is not part of the repository snapshot,
are modelled from the specification and marked as such in their doc comments.
-/

/-! ## Intent registration submission (`IntentRegistrationNew.tsx`, `handleSubmit`) -/

structure IntentFormData where
  entity_id : String
  activity_level : String
  activity_description : String
  preparatory_work_description : String
  commencement_date : Int
  completion_date : Int
  deriving DecidableEq

structure IntentRecord where
  id : String
  user_id : String
  entity_id : String
  activity_level : String
  activity_description : String
  preparatory_work_description : String
  commencement_date : Int
  completion_date : Int
  status : String
  deriving DecidableEq

inductive SubmitError
  | invalidDateRange
  | storeError
  deriving DecidableEq

/-- The row inserted by `handleSubmit` on success: the form fields plus
`status: 'pending'`; `intentId` is the store-assigned id. -/
def mkIntentRecord (intentId userId : String) (form : IntentFormData) : IntentRecord :=
  { id := intentId
    user_id := userId
    entity_id := form.entity_id
    activity_level := form.activity_level
    activity_description := form.activity_description
    preparatory_work_description := form.preparatory_work_description
    commencement_date := form.commencement_date
    completion_date := form.completion_date
    status := "pending" }

/-- The date-validation and insert portion of `handleSubmit`
(`IntentRegistrationNew.tsx` lines 61-88): if
`new Date(commencement) >= new Date(completion)` the submission is rejected
with the date-range error and nothing is inserted; otherwise a single new
record is inserted (when the store accepts it).  Returns the result together
with the resulting `intent_registrations` table. -/
def submitIntent (intentId userId : String) (form : IntentFormData) (storeOk : Bool)
    (store : List IntentRecord) : Except SubmitError IntentRecord × List IntentRecord :=
  if form.commencement_date ≥ form.completion_date then
    (Except.error SubmitError.invalidDateRange, store)
  else if storeOk then
    let r := mkIntentRecord intentId userId form
    (Except.ok r, store ++ [r])
  else
    (Except.error SubmitError.storeError, store)

/-! ## User suspension workflow (`UserManagement.tsx`, `handleSuspendUser`) -/

structure ProfileRecord where
  id : String
  user_id : String
  user_type : String
  is_suspended : Option Bool
  suspended_at : Option Nat
  suspended_by : Option String
  suspension_reason : Option String
  created_at : Nat
  deriving DecidableEq

/-- JavaScript truthiness of the nullable `is_suspended` column
(`null` is falsy). -/
def truthy : Option Bool → Bool
  | some b => b
  | none => false

/-- `!reason.trim()` in the source is true exactly when every character of the
reason is whitespace. -/
def trimmedEmpty (s : String) : Bool :=
  s.data.all (fun c => c.isWhitespace)

/-- One `update` call on the `profiles` table.  The source issues a single
update object carrying all four suspension columns at once
(`UserManagement.tsx` lines 156-164), so a write is a full four-field tuple. -/
structure SuspensionUpdate where
  is_suspended : Bool
  suspended_at : Option Nat
  suspended_by : Option String
  suspension_reason : Option String
  deriving DecidableEq

inductive SuspensionOutcome
  | protectedAccount
  | reasonRequired
  | storeFailed
  | success (isSuspending : Bool)
  deriving DecidableEq

structure SuspensionRun where
  outcome : SuspensionOutcome
  /-- store update calls issued, in order -/
  attempted : List SuspensionUpdate
  /-- update calls the store actually committed -/
  applied : List SuspensionUpdate
  deriving DecidableEq

/-- The single update object built by `handleSuspendUser`
(`UserManagement.tsx` lines 158-163): all four suspension columns at once,
set when suspending, cleared when reactivating. -/
def suspendUpdateOf (actingUserId : String) (target : ProfileRecord) (suspensionReason : String)
    (now : Nat) : SuspensionUpdate :=
  let isSuspending := !(truthy target.is_suspended)
  { is_suspended := isSuspending
    suspended_at := if isSuspending then some now else none
    suspended_by := if isSuspending then some actingUserId else none
    suspension_reason := if isSuspending then some suspensionReason else none }

/-- `handleSuspendUser` (`UserManagement.tsx` lines 133-184).  The direction is
derived from the target row: suspending when `!userToSuspend.is_suspended`,
reactivating otherwise.  Super-admin targets are rejected before any store
call; suspending with a blank reason is rejected before any store call;
otherwise one update carrying all four suspension fields is issued. -/
def handleSuspendUser (actingUserId : String) (target : ProfileRecord)
    (suspensionReason : String) (now : Nat) (storeOk : Bool) : SuspensionRun :=
  if target.user_type == "super_admin" then
    { outcome := SuspensionOutcome.protectedAccount, attempted := [], applied := [] }
  else if !(truthy target.is_suspended) && trimmedEmpty suspensionReason then
    { outcome := SuspensionOutcome.reasonRequired, attempted := [], applied := [] }
  else
    let isSuspending := !(truthy target.is_suspended)
    let upd := suspendUpdateOf actingUserId target suspensionReason now
    if storeOk then
      { outcome := SuspensionOutcome.success isSuspending, attempted := [upd], applied := [upd] }
    else
      { outcome := SuspensionOutcome.storeFailed, attempted := [upd], applied := [] }

/-- Effect of one committed suspension update on a profile row. -/
def applyUpdate (p : ProfileRecord) (u : SuspensionUpdate) : ProfileRecord :=
  { p with
    is_suspended := some u.is_suspended
    suspended_at := u.suspended_at
    suspended_by := u.suspended_by
    suspension_reason := u.suspension_reason }

/-- The target profile row after a suspension run. -/
def stateAfter (p : ProfileRecord) (run : SuspensionRun) : ProfileRecord :=
  run.applied.foldl applyUpdate p

/-! ## Notifier output -/

structure Toast where
  title : String
  description : String
  destructive : Bool
  deriving DecidableEq

/-! ## Document deletion (`DocumentManagement`, `handleDelete`) -/

structure DocumentInfo where
  id : String
  filename : String
  file_path : String
  file_size : Nat
  mime_type : String
  deriving DecidableEq

structure DocRecord where
  id : String
  filename : String
  file_path : String
  file_size : Nat
  mime_type : String
  intent_registration_id : Option String
  deriving DecidableEq

/-- A call against the record store / object store for documents. -/
inductive StoreOp
  | createRecord (r : DocRecord)
  | deleteRecord (id : String)
  | deleteBlob (key : String)
  deriving DecidableEq

/-- Document-side state: the `documents` table and the set of stored blobs. -/
structure DocState where
  records : List DocRecord
  blobs : List String
  deriving DecidableEq

structure DeleteRun where
  /-- store calls issued, in order -/
  attempted : List StoreOp
  records : List DocRecord
  blobs : List String
  toasts : List Toast
  deriving DecidableEq

/-- `handleDelete` (`DocumentManagement` component, lines 689-718): the
object-store removal is issued first and a failure there throws, so the
record deletion is never attempted; the record is deleted only after the blob
removal succeeded. -/
def handleDelete (fileId filePath : String) (blobOk dbOk : Bool) (s : DocState) : DeleteRun :=
  if !blobOk then
    { attempted := [StoreOp.deleteBlob filePath]
      records := s.records
      blobs := s.blobs
      toasts := [⟨"Deletion Failed", "Failed to delete file", true⟩] }
  else if !dbOk then
    { attempted := [StoreOp.deleteBlob filePath, StoreOp.deleteRecord fileId]
      records := s.records
      blobs := s.blobs.filter (fun b => b != filePath)
      toasts := [⟨"Deletion Failed", "Failed to delete file", true⟩] }
  else
    { attempted := [StoreOp.deleteBlob filePath, StoreOp.deleteRecord fileId]
      records := s.records.filter (fun r => r.id != fileId)
      blobs := s.blobs.filter (fun b => b != filePath)
      toasts := [⟨"File Deleted", "File has been deleted successfully.", false⟩] }

/-! ## Draft-document linking (`IntentRegistrationNew.tsx` lines 93-101) -/

/-- The parent-referencing record created for one draft (spec §4.2 step 1):
same storage key, filename, size and mime type, parent id set; the
store-assigned id of the new record is modelled by `newId`. -/
def linkedRecord (newId : String → String) (intentId : String) (d : DocumentInfo) : DocRecord :=
  { id := newId d.id
    filename := d.filename
    file_path := d.file_path
    file_size := d.file_size
    mime_type := d.mime_type
    intent_registration_id := some intentId }

/-- Modelled from the spec: `linkDraftsToIntent` belongs to the `useDocuments`
hook, whose source file is not in the repository snapshot.  Spec §4.2 step 1:
for every pending draft document it creates a new document record carrying the
same storage key, filename, size, and mime type, now with the parent id set,
and returns the created records (the call site reports `linked.length`). -/
def linkDraftsToIntent (newId : String → String) (drafts : List DocumentInfo)
    (intentId : String) : List DocRecord :=
  drafts.map (linkedRecord newId intentId)

/-- Modelled from the spec: `deleteDocumentRecordOnly` belongs to the
`useDocuments` hook, whose source file is not in the repository snapshot.
Spec §4.2 step 2: it deletes the original draft document record only — the
object-store blob is not deleted — and a cleanup-delete failure is logged,
not thrown. -/
def deleteDocumentRecordOnly (docId : String) : List StoreOp :=
  [StoreOp.deleteRecord docId]

/-- The store calls issued by the linking section of `handleSubmit`
(`IntentRegistrationNew.tsx` lines 93-101): the awaited `linkDraftsToIntent`
record creations first, then the draft-record deletions. -/
def linkPhaseOps (newId : String → String) (drafts : List DocumentInfo)
    (intentId : String) : List StoreOp :=
  (linkDraftsToIntent newId drafts intentId).map StoreOp.createRecord ++
    drafts.flatMap (fun d => deleteDocumentRecordOnly d.id)

/-- Effect of one store call on the document-side state.  A failing record
deletion (logged, not thrown, per spec §4.2) leaves the table unchanged. -/
def applyOp (deleteFails : String → Bool) (s : DocState) : StoreOp → DocState
  | StoreOp.createRecord r => { s with records := s.records ++ [r] }
  | StoreOp.deleteRecord i =>
      if deleteFails i then s
      else { s with records := s.records.filter (fun r => r.id != i) }
  | StoreOp.deleteBlob k => { s with blobs := s.blobs.filter (fun b => b != k) }

/-- The document-side state after a sequence of store calls. -/
def runOps (deleteFails : String → Bool) (s : DocState) (ops : List StoreOp) : DocState :=
  ops.foldl (applyOp deleteFails) s

/-- The draft-state document record of an uploaded draft (no parent yet). -/
def draftRecord (d : DocumentInfo) : DocRecord :=
  { id := d.id
    filename := d.filename
    file_path := d.file_path
    file_size := d.file_size
    mime_type := d.mime_type
    intent_registration_id := none }

/-- The outputs of one `handleSubmit` invocation. -/
structure SubmitRun where
  result : Except SubmitError IntentRecord
  intentStore : List IntentRecord
  docOps : List StoreOp
  docs : DocState
  toasts : List Toast
  logs : List String

/-- The whole `handleSubmit` control flow (`IntentRegistrationNew.tsx` lines
49-126): date validation, the single insert, the linking section run when
pending draft documents exist, the success toasts, and the logs.  Per spec
§4.2 a cleanup-delete failure is logged inside `deleteDocumentRecordOnly`
and does not alter the control flow. -/
def handleSubmit (intentId userId : String) (newId : String → String) (form : IntentFormData)
    (storeOk : Bool) (deleteFails : String → Bool) (pendingDocuments : List DocumentInfo)
    (intentStore : List IntentRecord) (docs : DocState) : SubmitRun :=
  if form.commencement_date ≥ form.completion_date then
    { result := Except.error SubmitError.invalidDateRange
      intentStore := intentStore
      docOps := []
      docs := docs
      toasts := [⟨"Invalid Dates", "Completion date must be after commencement date.", true⟩]
      logs := [] }
  else if !storeOk then
    { result := Except.error SubmitError.storeError
      intentStore := intentStore
      docOps := []
      docs := docs
      toasts := [⟨"Submission Failed",
        "Failed to submit intent registration. Please try again.", true⟩]
      logs := ["Error submitting intent registration"] }
  else
    let r := mkIntentRecord intentId userId form
    let linked := linkDraftsToIntent newId pendingDocuments intentId
    let ops :=
      if pendingDocuments.length > 0 then linkPhaseOps newId pendingDocuments intentId else []
    let linkToasts : List Toast :=
      if pendingDocuments.length > 0 then
        [⟨"Documents Linked",
          toString linked.length ++ " document(s) linked to this intent.", false⟩]
      else []
    { result := Except.ok r
      intentStore := intentStore ++ [r]
      docOps := ops
      docs := runOps deleteFails docs ops
      toasts := linkToasts ++
        [⟨"Intent Registration Submitted",
          "Your registration of intent has been submitted successfully. You can now upload supporting documents.",
          false⟩]
      logs := (pendingDocuments.filter (fun d => deleteFails d.id)).map
        (fun d => "delete draft record failed: " ++ d.id) }

/-! ## User listing gate (`UserManagement.tsx`, `fetchUsers`) -/

inductive ReadQuery
  | readAllProfiles
  deriving DecidableEq

structure FetchUsersRun where
  reads : List ReadQuery
  users : List ProfileRecord
  toasts : List Toast
  deriving DecidableEq

def accessDeniedToast : Toast :=
  ⟨"Access Denied", "You don\x27t have permission to view all users", true⟩

/-- Relation used to model `order by created_at descending`. -/
def createdGE (a b : ProfileRecord) : Prop := b.created_at ≤ a.created_at

instance : DecidableRel createdGE :=
  fun a b => inferInstanceAs (Decidable (b.created_at ≤ a.created_at))

instance : IsTotal ProfileRecord createdGE :=
  ⟨fun a b => le_total b.created_at a.created_at⟩

instance : IsTrans ProfileRecord createdGE :=
  ⟨fun _ _ _ h1 h2 => le_trans h2 h1⟩

/-- `fetchUsers` (`UserManagement.tsx` lines 78-108): when the acting profile
is missing or is neither admin nor super_admin, the function returns after
showing the access-denied toast, before issuing any store read; the `users`
state keeps its initial empty value. -/
def fetchUsers (profile : Option ProfileRecord) (store : List ProfileRecord) : FetchUsersRun :=
  match profile with
  | none =>
      { reads := [], users := [], toasts := [accessDeniedToast] }
  | some p =>
      if p.user_type != "admin" && p.user_type != "super_admin" then
        { reads := [], users := [], toasts := [accessDeniedToast] }
      else
        { reads := [ReadQuery.readAllProfiles]
          users := store.insertionSort createdGE
          toasts := [] }

/-! ## Dashboard activity feed (`PublicDashboard.tsx`, `fetchRecentActivities`) -/

/-- One `permit_applications` row joined with its initial assessment
(the fields the feed reads). -/
structure AppRow where
  id : String
  title : String
  status : String
  updated_at : Int
  application_number : Option String
  feedback_provided : Option String
  deriving DecidableEq

structure InvoiceRow where
  id : String
  invoice_number : String
  payment_status : String
  amount : Int
  due_date : Int
  updated_at : Int
  deriving DecidableEq

structure NotificationRow where
  id : String
  title : String
  message : String
  created_at : Int
  is_read : Bool
  deriving DecidableEq

structure RecentActivity where
  id : String
  type : String
  title : String
  description : String
  status : String
  timestamp : Int
  actionable : Bool
  actionText : Option String
  deriving DecidableEq

/-- `getStatusUpdateTitle` (`PublicDashboard.tsx` lines 248-261): the
status-to-label mapping with its default fallback. -/
def getStatusUpdateTitle (status : String) : String :=
  if status == "approved" then "Application Approved"
  else if status == "rejected" then "Application Rejected"
  else if status == "under_initial_review" then "Under Initial Review"
  else if status == "initial_assessment_passed" then "Initial Assessment Passed"
  else if status == "pending_technical_assessment" then "Pending Technical Assessment"
  else if status == "under_technical_assessment" then "Under Technical Assessment"
  else if status == "requires_clarification" then "Requires Clarification"
  else if status == "submitted" then "Application Submitted"
  else if status == "draft" then "Draft Application"
  else "Application Updated"

/-- The activity item built from one application row
(`PublicDashboard.tsx` lines 172-191). -/
def appToActivity (app : AppRow) : RecentActivity :=
  let base := (if app.title == "" then "Permit Application" else app.title) ++ " " ++
    (match app.application_number with
      | some n => "(" ++ n ++ ")"
      | none => "")
  { id := app.id
    type := "application"
    title := getStatusUpdateTitle app.status
    description :=
      match app.feedback_provided with
      | some fb => base ++ " - " ++ fb
      | none => base
    status := app.status
    timestamp := app.updated_at
    actionable := app.status == "draft" || app.status == "requires_clarification"
    actionText :=
      if app.status == "draft" then some "Continue Draft"
      else if app.status == "requires_clarification" then some "Respond to Feedback"
      else none }

/-- The activity item built from one invoice row
(`PublicDashboard.tsx` lines 203-215). -/
def invoiceToActivity (nowMs : Int) (inv : InvoiceRow) : RecentActivity :=
  let isOverdue := inv.due_date < nowMs && inv.payment_status == "pending"
  { id := inv.id
    type := "invoice"
    title := if isOverdue then "Overdue Payment" else "Invoice " ++ inv.payment_status
    description := "Invoice " ++ inv.invoice_number ++ " - K" ++ toString inv.amount
    status := inv.payment_status
    timestamp := inv.updated_at
    actionable := inv.payment_status == "pending"
    actionText := if inv.payment_status == "pending" then some "View Invoice" else none }

/-- The activity item built from one notification row
(`PublicDashboard.tsx` lines 227-236). -/
def notificationToActivity (n : NotificationRow) : RecentActivity :=
  { id := n.id
    type := "notification"
    title := n.title
    description := n.message
    status := if n.is_read then "read" else "unread"
    timestamp := n.created_at
    actionable := false
    actionText := none }

/-- Sort relation of the feed: descending by timestamp (the JavaScript
comparator `(a, b) => tb - ta`). -/
def tsGE (a b : RecentActivity) : Prop := b.timestamp ≤ a.timestamp

instance : DecidableRel tsGE :=
  fun a b => inferInstanceAs (Decidable (b.timestamp ≤ a.timestamp))

instance : IsTotal RecentActivity tsGE :=
  ⟨fun a b => le_total b.timestamp a.timestamp⟩

instance : IsTrans RecentActivity tsGE :=
  ⟨fun _ _ _ h1 h2 => le_trans h2 h1⟩

/-- The merged items contributed by the three independent sources.  A `none`
source models a failed fetch: the code guards each block with
`if (!error && data)`, so a failing source contributes nothing and the others
are unaffected.  The `take`s model the per-source query limits (5
applications, 3 invoices, 3 notifications). -/
def sourceItems (nowMs : Int) (apps : Option (List AppRow))
    (invoices : Option (List InvoiceRow)) (notifications : Option (List NotificationRow)) :
    List RecentActivity :=
  (match apps with
    | some l => (l.take 5).map appToActivity
    | none => []) ++
  (match invoices with
    | some l => (l.take 3).map (invoiceToActivity nowMs)
    | none => []) ++
  (match notifications with
    | some l => (l.take 3).map notificationToActivity
    | none => [])

/-- `fetchRecentActivities` (`PublicDashboard.tsx` lines 147-246): merge the
three sources, sort descending by timestamp (JavaScript's stable sort on the
comparator, modelled by a stable insertion sort on the same relation) and
keep the 6 most recent. -/
def fetchRecentActivities (nowMs : Int) (apps : Option (List AppRow))
    (invoices : Option (List InvoiceRow)) (notifications : Option (List NotificationRow)) :
    List RecentActivity :=
  ((sourceItems nowMs apps invoices notifications).insertionSort tsGE).take 6

/-! ## Theorems -/

theorem handleSuspendUser_super (actingUserId : String) (target : ProfileRecord)
    (reason : String) (now : Nat) (storeOk : Bool)
    (hsa : (target.user_type == "super_admin") = true) :
    handleSuspendUser actingUserId target reason now storeOk =
      { outcome := SuspensionOutcome.protectedAccount, attempted := [], applied := [] } := by
  simp [handleSuspendUser, hsa]

theorem handleSuspendUser_blank (actingUserId : String) (target : ProfileRecord)
    (reason : String) (now : Nat) (storeOk : Bool)
    (hsa : (target.user_type == "super_admin") = false)
    (hcond : (!(truthy target.is_suspended) && trimmedEmpty reason) = true) :
    handleSuspendUser actingUserId target reason now storeOk =
      { outcome := SuspensionOutcome.reasonRequired, attempted := [], applied := [] } := by
  simp [handleSuspendUser, hsa, hcond]

theorem handleSuspendUser_write_ok (actingUserId : String) (target : ProfileRecord)
    (reason : String) (now : Nat)
    (hsa : (target.user_type == "super_admin") = false)
    (hcond : (!(truthy target.is_suspended) && trimmedEmpty reason) = false) :
    handleSuspendUser actingUserId target reason now true =
      { outcome := SuspensionOutcome.success (!(truthy target.is_suspended))
        attempted := [suspendUpdateOf actingUserId target reason now]
        applied := [suspendUpdateOf actingUserId target reason now] } := by
  simp [handleSuspendUser, hsa, hcond]

theorem handleSuspendUser_write_fail (actingUserId : String) (target : ProfileRecord)
    (reason : String) (now : Nat)
    (hsa : (target.user_type == "super_admin") = false)
    (hcond : (!(truthy target.is_suspended) && trimmedEmpty reason) = false) :
    handleSuspendUser actingUserId target reason now false =
      { outcome := SuspensionOutcome.storeFailed
        attempted := [suspendUpdateOf actingUserId target reason now]
        applied := [] } := by
  simp [handleSuspendUser, hsa, hcond]

/-- C1: a submission of the intent-registration form succeeds — exactly one
new `intent_registrations` record is inserted — if and only if the completion
date is strictly later than the commencement date (given that the store
itself accepts the insert); and whenever the date pair violates this, the
operation fails with the date-range validation error and the table is left
unchanged, whatever the store would have done. -/
theorem submitIntent_ok_iff_dates_valid (intentId userId : String) (form : IntentFormData)
    (store : List IntentRecord) :
    (((submitIntent intentId userId form true store).1.isOk = true ∧
        (submitIntent intentId userId form true store).2.length = store.length + 1) ↔
      form.commencement_date < form.completion_date) ∧
    (∀ storeOk : Bool, form.completion_date ≤ form.commencement_date →
      submitIntent intentId userId form storeOk store =
        (Except.error SubmitError.invalidDateRange, store)) := by
  constructor
  · by_cases h : form.commencement_date ≥ form.completion_date
    · simp only [submitIntent, if_pos h]
      constructor
      · rintro ⟨h1, -⟩
        simp [Except.isOk, Except.toBool] at h1
      · intro hlt
        omega
    · simp only [submitIntent, if_neg h, if_pos rfl]
      constructor
      · intro _
        omega
      · intro _
        refine ⟨rfl, ?_⟩
        simp
  · intro storeOk hle
    have h : form.commencement_date ≥ form.completion_date := hle
    simp [submitIntent, if_pos h]

/-- Witness for C1 at a concrete input: dates 10 < 20 give a successful
insert, and the iff together with the violation clause hold there. -/
theorem submitIntent_ok_iff_dates_valid_witness :
    (((submitIntent "i1" "u1" ⟨"e1", "Level 2", "a", "p", 10, 20⟩ true []).1.isOk = true ∧
        (submitIntent "i1" "u1" ⟨"e1", "Level 2", "a", "p", 10, 20⟩ true []).2.length = 0 + 1) ↔
      (10 : Int) < 20) ∧
    (∀ storeOk : Bool, (20 : Int) ≤ 10 →
      submitIntent "i1" "u1" ⟨"e1", "Level 2", "a", "p", 10, 20⟩ storeOk [] =
        (Except.error SubmitError.invalidDateRange, [])) :=
  submitIntent_ok_iff_dates_valid "i1" "u1" ⟨"e1", "Level 2", "a", "p", 10, 20⟩ []

/-- C5: for a super-admin target, `handleSuspendUser` fails with the
protected-account error regardless of the requested direction (which the code
derives from the target's current `is_suspended` value), issues no store
write, and leaves all four suspension fields unchanged. -/
theorem suspend_super_admin_protected (actingUserId : String) (target : ProfileRecord)
    (reason : String) (now : Nat) (storeOk : Bool)
    (h : target.user_type = "super_admin") :
    (handleSuspendUser actingUserId target reason now storeOk).outcome =
        SuspensionOutcome.protectedAccount ∧
    (handleSuspendUser actingUserId target reason now storeOk).attempted = [] ∧
    stateAfter target (handleSuspendUser actingUserId target reason now storeOk) = target ∧
    (stateAfter target (handleSuspendUser actingUserId target reason now storeOk)).is_suspended =
        target.is_suspended ∧
    (stateAfter target (handleSuspendUser actingUserId target reason now storeOk)).suspended_at =
        target.suspended_at ∧
    (stateAfter target (handleSuspendUser actingUserId target reason now storeOk)).suspended_by =
        target.suspended_by ∧
    (stateAfter target
        (handleSuspendUser actingUserId target reason now storeOk)).suspension_reason =
      target.suspension_reason := by
  simp [handleSuspendUser, h, stateAfter]

/-- Witness for C5: a concrete super-admin target in both directions
(the suspended and the not-suspended case at once via `storeOk = true`). -/
theorem suspend_super_admin_protected_witness :
    (⟨"p9", "u9", "super_admin", some false, none, none, none, 5⟩ :
        ProfileRecord).user_type = "super_admin" ∧
    (handleSuspendUser "admin1" ⟨"p9", "u9", "super_admin", some false, none, none, none, 5⟩
          "reason" 100 true).outcome = SuspensionOutcome.protectedAccount ∧
    (handleSuspendUser "admin1" ⟨"p9", "u9", "super_admin", some false, none, none, none, 5⟩
          "reason" 100 true).attempted = [] ∧
    stateAfter ⟨"p9", "u9", "super_admin", some false, none, none, none, 5⟩
        (handleSuspendUser "admin1" ⟨"p9", "u9", "super_admin", some false, none, none, none, 5⟩
          "reason" 100 true) = ⟨"p9", "u9", "super_admin", some false, none, none, none, 5⟩ := by
  have h := suspend_super_admin_protected "admin1"
    ⟨"p9", "u9", "super_admin", some false, none, none, none, 5⟩ "reason" 100 true rfl
  exact ⟨rfl, h.1, h.2.1, h.2.2.1⟩

/-- C6: for a non-super-admin target that is not currently suspended (the
suspend direction), a blank or whitespace-only reason is rejected with the
reason-required error before any store call and nothing is mutated; a
non-blank reason produces, in one store call, `is_suspended = true` with all
three audit fields non-null. -/
theorem suspend_reason_required_and_audit_fields (actingUserId : String)
    (target : ProfileRecord) (reason : String) (now : Nat)
    (hsa : target.user_type ≠ "super_admin") (hdir : truthy target.is_suspended = false) :
    (trimmedEmpty reason = true →
      (handleSuspendUser actingUserId target reason now true).outcome =
          SuspensionOutcome.reasonRequired ∧
      (handleSuspendUser actingUserId target reason now true).attempted = [] ∧
      stateAfter target (handleSuspendUser actingUserId target reason now true) = target) ∧
    (trimmedEmpty reason = false →
      (handleSuspendUser actingUserId target reason now true).outcome =
          SuspensionOutcome.success true ∧
      (handleSuspendUser actingUserId target reason now true).applied =
        [{ is_suspended := true, suspended_at := some now, suspended_by := some actingUserId,
           suspension_reason := some reason }] ∧
      (stateAfter target (handleSuspendUser actingUserId target reason now true)).is_suspended =
          some true ∧
      (stateAfter target
          (handleSuspendUser actingUserId target reason now true)).suspended_at.isSome = true ∧
      (stateAfter target
          (handleSuspendUser actingUserId target reason now true)).suspended_by.isSome = true ∧
      (stateAfter target
          (handleSuspendUser actingUserId target reason now true)).suspension_reason.isSome =
        true) := by
  have hsa' : (target.user_type == "super_admin") = false := by
    simpa using hsa
  constructor
  · intro hblank
    simp [handleSuspendUser, hsa', hdir, hblank, stateAfter]
  · intro hfilled
    simp [handleSuspendUser, suspendUpdateOf, hsa', hdir, hfilled, stateAfter, applyUpdate]

/-- Witness for C6 at concrete inputs: whitespace-only reason is rejected,
and the reason "valid reason" suspends with all audit fields set. -/
theorem suspend_reason_required_and_audit_fields_witness :
    ((⟨"p2", "u2", "public", none, none, none, none, 3⟩ :
        ProfileRecord).user_type ≠ "super_admin" ∧
      truthy (⟨"p2", "u2", "public", none, none, none, none, 3⟩ :
        ProfileRecord).is_suspended = false) ∧
    (trimmedEmpty "  " = true →
      (handleSuspendUser "admin1" ⟨"p2", "u2", "public", none, none, none, none, 3⟩
          "  " 100 true).outcome = SuspensionOutcome.reasonRequired ∧
      (handleSuspendUser "admin1" ⟨"p2", "u2", "public", none, none, none, none, 3⟩
          "  " 100 true).attempted = [] ∧
      stateAfter ⟨"p2", "u2", "public", none, none, none, none, 3⟩
          (handleSuspendUser "admin1" ⟨"p2", "u2", "public", none, none, none, none, 3⟩
            "  " 100 true) = ⟨"p2", "u2", "public", none, none, none, none, 3⟩) ∧
    (trimmedEmpty "valid reason" = false →
      (handleSuspendUser "admin1" ⟨"p2", "u2", "public", none, none, none, none, 3⟩
          "valid reason" 100 true).outcome = SuspensionOutcome.success true ∧
      (handleSuspendUser "admin1" ⟨"p2", "u2", "public", none, none, none, none, 3⟩
          "valid reason" 100 true).applied =
        [{ is_suspended := true, suspended_at := some 100, suspended_by := some "admin1",
           suspension_reason := some "valid reason" }] ∧
      (stateAfter ⟨"p2", "u2", "public", none, none, none, none, 3⟩
          (handleSuspendUser "admin1" ⟨"p2", "u2", "public", none, none, none, none, 3⟩
            "valid reason" 100 true)).is_suspended = some true ∧
      (stateAfter ⟨"p2", "u2", "public", none, none, none, none, 3⟩
          (handleSuspendUser "admin1" ⟨"p2", "u2", "public", none, none, none, none, 3⟩
            "valid reason" 100 true)).suspended_at.isSome = true ∧
      (stateAfter ⟨"p2", "u2", "public", none, none, none, none, 3⟩
          (handleSuspendUser "admin1" ⟨"p2", "u2", "public", none, none, none, none, 3⟩
            "valid reason" 100 true)).suspended_by.isSome = true ∧
      (stateAfter ⟨"p2", "u2", "public", none, none, none, none, 3⟩
          (handleSuspendUser "admin1" ⟨"p2", "u2", "public", none, none, none, none, 3⟩
            "valid reason" 100 true)).suspension_reason.isSome = true) := by
  have h := suspend_reason_required_and_audit_fields "admin1"
    ⟨"p2", "u2", "public", none, none, none, none, 3⟩ "  " 100 (by decide) (by decide)
  have h2 := suspend_reason_required_and_audit_fields "admin1"
    ⟨"p2", "u2", "public", none, none, none, none, 3⟩ "valid reason" 100 (by decide) (by decide)
  exact ⟨⟨by decide, by decide⟩, h.1, h2.2⟩

/-- C7: every store write issued by the suspension workflow carries all four
suspension fields together — either the full suspend tuple (flag true,
timestamp, acting admin id, reason text) or the full clear tuple (flag false,
all three audit fields null) — and consequently, starting from any profile
satisfying the invariant, no state reachable through the workflow has
`is_suspended = true` with `suspended_at` null. -/
theorem suspension_writes_all_four_fields (actingUserId : String) (target : ProfileRecord)
    (reason : String) (now : Nat) (storeOk : Bool) :
    (∀ u ∈ (handleSuspendUser actingUserId target reason now storeOk).attempted,
      (u.is_suspended = true ∧ u.suspended_at = some now ∧
        u.suspended_by = some actingUserId ∧ u.suspension_reason = some reason) ∨
      (u.is_suspended = false ∧ u.suspended_at = none ∧
        u.suspended_by = none ∧ u.suspension_reason = none)) ∧
    ((truthy target.is_suspended = true → target.suspended_at ≠ none) →
      truthy (stateAfter target
          (handleSuspendUser actingUserId target reason now storeOk)).is_suspended = true →
      (stateAfter target
          (handleSuspendUser actingUserId target reason now storeOk)).suspended_at ≠ none) := by
  by_cases hsa : (target.user_type == "super_admin") = true
  · rw [handleSuspendUser_super actingUserId target reason now storeOk hsa]
    refine ⟨?_, ?_⟩
    · intro u hu
      simp at hu
    · intro hinv
      simpa [stateAfter] using hinv
  · have hsa' : (target.user_type == "super_admin") = false := by
      simpa using hsa
    by_cases hcond : (!(truthy target.is_suspended) && trimmedEmpty reason) = true
    · rw [handleSuspendUser_blank actingUserId target reason now storeOk hsa' hcond]
      refine ⟨?_, ?_⟩
      · intro u hu
        simp at hu
      · intro hinv
        simpa [stateAfter] using hinv
    · have hcond' : (!(truthy target.is_suspended) && trimmedEmpty reason) = false := by
        simpa using hcond
      refine ⟨?_, ?_⟩
      · intro u hu
        have hmem : u = suspendUpdateOf actingUserId target reason now := by
          cases storeOk
          · rw [handleSuspendUser_write_fail actingUserId target reason now hsa' hcond'] at hu
            simpa using hu
          · rw [handleSuspendUser_write_ok actingUserId target reason now hsa' hcond'] at hu
            simpa using hu
        subst hmem
        by_cases hdir : truthy target.is_suspended = true
        · right
          simp [suspendUpdateOf, hdir]
        · have hdir' : truthy target.is_suspended = false := by simpa using hdir
          left
          simp [suspendUpdateOf, hdir']
      · cases storeOk
        · rw [handleSuspendUser_write_fail actingUserId target reason now hsa' hcond']
          intro hinv
          simpa [stateAfter] using hinv
        · rw [handleSuspendUser_write_ok actingUserId target reason now hsa' hcond']
          intro hinv
          cases hsusp : target.is_suspended with
          | none =>
            intro _
            simp [stateAfter, applyUpdate, suspendUpdateOf, truthy, hsusp]
          | some b =>
            cases b with
            | false =>
              intro _
              simp [stateAfter, applyUpdate, suspendUpdateOf, truthy, hsusp]
            | true =>
              intro htr
              exfalso
              simp [stateAfter, applyUpdate, suspendUpdateOf, truthy, hsusp] at htr

/-- Witness for C7: concrete suspend call; the write carries the full
four-field tuple and the invariant holds afterwards. -/
theorem suspension_writes_all_four_fields_witness :
    (∀ u ∈ (handleSuspendUser "admin1" ⟨"p3", "u3", "staff", none, none, none, none, 4⟩
        "bad conduct" 77 true).attempted,
      (u.is_suspended = true ∧ u.suspended_at = some 77 ∧
        u.suspended_by = some "admin1" ∧ u.suspension_reason = some "bad conduct") ∨
      (u.is_suspended = false ∧ u.suspended_at = none ∧
        u.suspended_by = none ∧ u.suspension_reason = none)) ∧
    ((truthy (⟨"p3", "u3", "staff", none, none, none, none, 4⟩ :
        ProfileRecord).is_suspended = true →
      (⟨"p3", "u3", "staff", none, none, none, none, 4⟩ :
        ProfileRecord).suspended_at ≠ none) →
      truthy (stateAfter ⟨"p3", "u3", "staff", none, none, none, none, 4⟩
          (handleSuspendUser "admin1" ⟨"p3", "u3", "staff", none, none, none, none, 4⟩
            "bad conduct" 77 true)).is_suspended = true →
      (stateAfter ⟨"p3", "u3", "staff", none, none, none, none, 4⟩
          (handleSuspendUser "admin1" ⟨"p3", "u3", "staff", none, none, none, none, 4⟩
            "bad conduct" 77 true)).suspended_at ≠ none) :=
  suspension_writes_all_four_fields "admin1"
    ⟨"p3", "u3", "staff", none, none, none, none, 4⟩ "bad conduct" 77 true

/-- C9: in the user-initiated deletion of a not-yet-linked document, the blob
removal is the first store call issued; when it fails, the record deletion is
never attempted and the `documents` table is left intact; and whenever the
record deletion is attempted at all, it comes strictly after the blob
removal. -/
theorem delete_blob_first_record_after (fileId filePath : String) (blobOk dbOk : Bool)
    (s : DocState) :
    (handleDelete fileId filePath blobOk dbOk s).attempted.head? =
        some (StoreOp.deleteBlob filePath) ∧
    (blobOk = false →
      (handleDelete fileId filePath blobOk dbOk s).attempted = [StoreOp.deleteBlob filePath] ∧
      (handleDelete fileId filePath blobOk dbOk s).records = s.records) ∧
    (StoreOp.deleteRecord fileId ∈ (handleDelete fileId filePath blobOk dbOk s).attempted →
      (handleDelete fileId filePath blobOk dbOk s).attempted =
        [StoreOp.deleteBlob filePath, StoreOp.deleteRecord fileId]) := by
  cases blobOk <;> cases dbOk <;>
    simp [handleDelete]

/-- Witness for C9 at a concrete input: blob removal fails, the record
survives and no record deletion is attempted. -/
theorem delete_blob_first_record_after_witness :
    (handleDelete "f1" "u1/k1" false true
          ⟨[⟨"f1", "a.pdf", "u1/k1", 7, "application/pdf", none⟩], ["u1/k1"]⟩).attempted.head? =
        some (StoreOp.deleteBlob "u1/k1") ∧
    (false = false →
      (handleDelete "f1" "u1/k1" false true
          ⟨[⟨"f1", "a.pdf", "u1/k1", 7, "application/pdf", none⟩], ["u1/k1"]⟩).attempted =
        [StoreOp.deleteBlob "u1/k1"] ∧
      (handleDelete "f1" "u1/k1" false true
          ⟨[⟨"f1", "a.pdf", "u1/k1", 7, "application/pdf", none⟩], ["u1/k1"]⟩).records =
        [⟨"f1", "a.pdf", "u1/k1", 7, "application/pdf", none⟩]) ∧
    (StoreOp.deleteRecord "f1" ∈
        (handleDelete "f1" "u1/k1" false true
          ⟨[⟨"f1", "a.pdf", "u1/k1", 7, "application/pdf", none⟩], ["u1/k1"]⟩).attempted →
      (handleDelete "f1" "u1/k1" false true
          ⟨[⟨"f1", "a.pdf", "u1/k1", 7, "application/pdf", none⟩], ["u1/k1"]⟩).attempted =
        [StoreOp.deleteBlob "u1/k1", StoreOp.deleteRecord "f1"]) :=
  delete_blob_first_record_after "f1" "u1/k1" false true
    ⟨[⟨"f1", "a.pdf", "u1/k1", 7, "application/pdf", none⟩], ["u1/k1"]⟩

/-- C10: when the acting profile's user type is neither admin nor
super_admin, `fetchUsers` issues no store read at all, the displayed user
list stays empty, and only the access-denied notification is shown — so a
non-admin caller observes no profile data through this operation. -/
theorem fetchUsers_non_admin_gated (p : ProfileRecord) (store : List ProfileRecord)
    (h1 : p.user_type ≠ "admin") (h2 : p.user_type ≠ "super_admin") :
    (fetchUsers (some p) store).reads = [] ∧
    (fetchUsers (some p) store).users = [] ∧
    (fetchUsers (some p) store).toasts = [accessDeniedToast] := by
  have hb1 : (p.user_type != "admin") = true := by simpa using h1
  have hb2 : (p.user_type != "super_admin") = true := by simpa using h2
  simp [fetchUsers, hb1, hb2]

/-- Witness for C10: a concrete staff profile is denied even with a non-empty
profiles table. -/
theorem fetchUsers_non_admin_gated_witness :
    ((⟨"p5", "u5", "staff", none, none, none, none, 9⟩ :
        ProfileRecord).user_type ≠ "admin" ∧
      (⟨"p5", "u5", "staff", none, none, none, none, 9⟩ :
        ProfileRecord).user_type ≠ "super_admin") ∧
    (fetchUsers (some ⟨"p5", "u5", "staff", none, none, none, none, 9⟩)
        [⟨"p6", "u6", "public", none, none, none, none, 2⟩]).reads = [] ∧
    (fetchUsers (some ⟨"p5", "u5", "staff", none, none, none, none, 9⟩)
        [⟨"p6", "u6", "public", none, none, none, none, 2⟩]).users = [] ∧
    (fetchUsers (some ⟨"p5", "u5", "staff", none, none, none, none, 9⟩)
        [⟨"p6", "u6", "public", none, none, none, none, 2⟩]).toasts = [accessDeniedToast] :=
  ⟨⟨by decide, by decide⟩,
    fetchUsers_non_admin_gated ⟨"p5", "u5", "staff", none, none, none, none, 9⟩
      [⟨"p6", "u6", "public", none, none, none, none, 2⟩] (by decide) (by decide)⟩

theorem flatMap_deleteDocumentRecordOnly (drafts : List DocumentInfo) :
    (drafts.flatMap fun d => deleteDocumentRecordOnly d.id) =
      drafts.map (fun d => StoreOp.deleteRecord d.id) := by
  induction drafts with
  | nil => rfl
  | cons a t ih =>
    simp only [deleteDocumentRecordOnly] at ih ⊢
    simp [List.flatMap_cons, ih]

theorem runOps_map_createRecord (df : String → Bool) (rs : List DocRecord) :
    ∀ s : DocState, runOps df s (rs.map StoreOp.createRecord) =
      ⟨s.records ++ rs, s.blobs⟩ := by
  induction rs with
  | nil => intro s; simp [runOps]
  | cons r t ih =>
    intro s
    show runOps df (applyOp df s (StoreOp.createRecord r)) (t.map StoreOp.createRecord) = _
    rw [ih]
    simp [applyOp]

theorem mem_records_runOps_of_not_deleted (df : String → Bool) (ops : List StoreOp)
    (r : DocRecord) :
    ∀ s : DocState, r ∈ s.records → StoreOp.deleteRecord r.id ∉ ops →
      r ∈ (runOps df s ops).records := by
  induction ops with
  | nil =>
    intro s hr _
    simpa [runOps] using hr
  | cons op t ih =>
    intro s hr hnd
    have hndt : StoreOp.deleteRecord r.id ∉ t := fun h => hnd (List.mem_cons_of_mem _ h)
    show r ∈ (runOps df (applyOp df s op) t).records
    apply ih _ _ hndt
    cases op with
    | createRecord r2 =>
      show r ∈ s.records ++ [r2]
      exact List.mem_append_left _ hr
    | deleteBlob k =>
      exact hr
    | deleteRecord i =>
      have hii : r.id ≠ i := by
        intro h
        apply hnd
        rw [h]
        exact List.mem_cons_self _ _
      simp only [applyOp]
      by_cases hf : df i
      · rw [if_pos hf]
        exact hr
      · rw [if_neg hf]
        exact List.mem_filter.mpr ⟨hr, by simp [hii]⟩

theorem blobs_runOps_of_no_deleteBlob (df : String → Bool) (ops : List StoreOp) :
    ∀ s : DocState, (∀ k, StoreOp.deleteBlob k ∉ ops) →
      (runOps df s ops).blobs = s.blobs := by
  induction ops with
  | nil =>
    intro s _
    rfl
  | cons op t ih =>
    intro s hk
    have hkt : ∀ k, StoreOp.deleteBlob k ∉ t := fun k h => hk k (List.mem_cons_of_mem _ h)
    show (runOps df (applyOp df s op) t).blobs = s.blobs
    rw [ih _ hkt]
    cases op with
    | createRecord r2 => rfl
    | deleteRecord i =>
      simp only [applyOp]
      split <;> rfl
    | deleteBlob k =>
      exact absurd (List.mem_cons_self _ _) (hk k)

theorem no_deleteBlob_linkPhaseOps (newId : String → String) (drafts : List DocumentInfo)
    (intentId : String) (k : String) :
    StoreOp.deleteBlob k ∉ linkPhaseOps newId drafts intentId := by
  intro h
  rw [linkPhaseOps, flatMap_deleteDocumentRecordOnly] at h
  rcases List.mem_append.mp h with h1 | h2
  · rcases List.mem_map.mp h1 with ⟨r, -, hr⟩
    simp at hr
  · rcases List.mem_map.mp h2 with ⟨d, -, hd⟩
    simp at hd

/-- C2 counterexample: with one pending draft, after step 1 of the linking
run (the creation of the parent-referencing record) and before step 2 (the
draft-record deletion), two live document records reference the same blob
key simultaneously — refuting the claim that at every point of the run the
blob is referenced by exactly one live record, never two. -/
theorem linking_two_records_window_cex :
    ((runOps (fun _ => false)
          ⟨[⟨"d1", "site-plan.pdf", "u1/k1", 10, "application/pdf", none⟩], ["u1/k1"]⟩
          ((linkPhaseOps (fun i => "linked-" ++ i)
              [⟨"d1", "site-plan.pdf", "u1/k1", 10, "application/pdf"⟩]
              "intent-1").take 1)).records.filter
        (fun r => r.file_path == "u1/k1")).length = 2 := by decide

/-- C2 amended: throughout the linking run, every uploaded blob is referenced
by at least one live document record — never zero — the new
parent-referencing record of each draft is created strictly before that
draft's record is deleted (all creations precede all deletions), and no
object-store blob is ever deleted during linking (the blob set is unchanged
at every point of the run). -/
theorem linking_never_zero_create_before_delete (newId : String → String)
    (drafts : List DocumentInfo) (intentId : String) (deleteFails : String → Bool)
    (init : DocState)
    (hmem : ∀ d ∈ drafts, draftRecord d ∈ init.records)
    (hfresh : ∀ d ∈ drafts, ∀ e ∈ drafts, newId d.id ≠ e.id) :
    (∀ n, ∀ d ∈ drafts,
      ∃ r ∈ (runOps deleteFails init
          ((linkPhaseOps newId drafts intentId).take n)).records,
        r.file_path = d.file_path) ∧
    (∃ cs ds, linkPhaseOps newId drafts intentId = cs ++ ds ∧
      (∀ op ∈ cs, ∃ r, op = StoreOp.createRecord r) ∧
      (∀ op ∈ ds, ∃ i, op = StoreOp.deleteRecord i) ∧
      ∀ d ∈ drafts,
        StoreOp.createRecord (linkedRecord newId intentId d) ∈ cs ∧
          StoreOp.deleteRecord d.id ∈ ds) ∧
    (∀ k, StoreOp.deleteBlob k ∉ linkPhaseOps newId drafts intentId) ∧
    (∀ n, (runOps deleteFails init ((linkPhaseOps newId drafts intentId).take n)).blobs =
      init.blobs) := by
  have hops : linkPhaseOps newId drafts intentId =
      (linkDraftsToIntent newId drafts intentId).map StoreOp.createRecord ++
        drafts.map (fun d => StoreOp.deleteRecord d.id) := by
    rw [linkPhaseOps, flatMap_deleteDocumentRecordOnly]
  refine ⟨?_, ?_, no_deleteBlob_linkPhaseOps newId drafts intentId, ?_⟩
  · intro n d hd
    rw [hops, List.take_append_eq_append_take]
    by_cases hn : n ≤ ((linkDraftsToIntent newId drafts intentId).map StoreOp.createRecord).length
    · have hm : n - ((linkDraftsToIntent newId drafts intentId).map StoreOp.createRecord).length
          = 0 := by omega
      rw [hm, List.take_zero, List.append_nil, ← List.map_take, runOps_map_createRecord]
      exact ⟨draftRecord d, List.mem_append_left _ (hmem d hd), rfl⟩
    · have hlen : ((linkDraftsToIntent newId drafts intentId).map StoreOp.createRecord).length
          ≤ n := by omega
      rw [List.take_of_length_le hlen]
      have hsplit : runOps deleteFails init
          ((linkDraftsToIntent newId drafts intentId).map StoreOp.createRecord ++
            (drafts.map (fun e => StoreOp.deleteRecord e.id)).take
              (n - ((linkDraftsToIntent newId drafts intentId).map
                StoreOp.createRecord).length)) =
          runOps deleteFails
            (runOps deleteFails init
              ((linkDraftsToIntent newId drafts intentId).map StoreOp.createRecord))
            ((drafts.map (fun e => StoreOp.deleteRecord e.id)).take
              (n - ((linkDraftsToIntent newId drafts intentId).map
                StoreOp.createRecord).length)) := by
        simp [runOps, List.foldl_append]
      rw [hsplit, runOps_map_createRecord]
      refine ⟨linkedRecord newId intentId d, ?_, rfl⟩
      apply mem_records_runOps_of_not_deleted
      · show linkedRecord newId intentId d ∈
          init.records ++ linkDraftsToIntent newId drafts intentId
        refine List.mem_append_right _ ?_
        rw [linkDraftsToIntent]
        exact List.mem_map_of_mem _ hd
      · intro hcontra
        have hmem2 : StoreOp.deleteRecord (linkedRecord newId intentId d).id ∈
            drafts.map (fun e => StoreOp.deleteRecord e.id) :=
          (List.take_sublist _ _).subset hcontra
        rcases List.mem_map.mp hmem2 with ⟨e, he, heq⟩
        have hid : e.id = newId d.id := by
          injection heq
        exact hfresh d hd e he hid.symm
  · refine ⟨(linkDraftsToIntent newId drafts intentId).map StoreOp.createRecord,
      drafts.map (fun d => StoreOp.deleteRecord d.id), hops, ?_, ?_, ?_⟩
    · intro op hop
      rcases List.mem_map.mp hop with ⟨r, -, hr⟩
      exact ⟨r, hr.symm⟩
    · intro op hop
      rcases List.mem_map.mp hop with ⟨e, -, hd2⟩
      exact ⟨e.id, hd2.symm⟩
    · intro d hd
      constructor
      · rw [linkDraftsToIntent]
        exact List.mem_map_of_mem _ (List.mem_map_of_mem _ hd)
      · exact List.mem_map_of_mem _ hd
  · intro n
    apply blobs_runOps_of_no_deleteBlob
    intro k hkmem
    exact no_deleteBlob_linkPhaseOps newId drafts intentId k
      ((List.take_sublist n _).subset hkmem)

/-- Witness for the amended C2 at a concrete input: one pending draft, fresh
link-record ids, no delete failures. -/
theorem linking_never_zero_create_before_delete_witness :
    ((∀ d ∈ [(⟨"d1", "site-plan.pdf", "u1/k1", 10, "application/pdf"⟩ : DocumentInfo)],
        draftRecord d ∈
          (⟨[⟨"d1", "site-plan.pdf", "u1/k1", 10, "application/pdf", none⟩], ["u1/k1"]⟩ :
            DocState).records) ∧
      (∀ d ∈ [(⟨"d1", "site-plan.pdf", "u1/k1", 10, "application/pdf"⟩ : DocumentInfo)],
        ∀ e ∈ [(⟨"d1", "site-plan.pdf", "u1/k1", 10, "application/pdf"⟩ : DocumentInfo)],
          (fun i => "linked-" ++ i) d.id ≠ e.id)) ∧
    ((∀ n, ∀ d ∈ [(⟨"d1", "site-plan.pdf", "u1/k1", 10, "application/pdf"⟩ : DocumentInfo)],
        ∃ r ∈ (runOps (fun _ => false)
            ⟨[⟨"d1", "site-plan.pdf", "u1/k1", 10, "application/pdf", none⟩], ["u1/k1"]⟩
            ((linkPhaseOps (fun i => "linked-" ++ i)
                [⟨"d1", "site-plan.pdf", "u1/k1", 10, "application/pdf"⟩]
                "intent-1").take n)).records,
          r.file_path = d.file_path) ∧
      (∃ cs ds, linkPhaseOps (fun i => "linked-" ++ i)
            [(⟨"d1", "site-plan.pdf", "u1/k1", 10, "application/pdf"⟩ : DocumentInfo)]
            "intent-1" = cs ++ ds ∧
        (∀ op ∈ cs, ∃ r, op = StoreOp.createRecord r) ∧
        (∀ op ∈ ds, ∃ i, op = StoreOp.deleteRecord i) ∧
        ∀ d ∈ [(⟨"d1", "site-plan.pdf", "u1/k1", 10, "application/pdf"⟩ : DocumentInfo)],
          StoreOp.createRecord (linkedRecord (fun i => "linked-" ++ i) "intent-1" d) ∈ cs ∧
            StoreOp.deleteRecord d.id ∈ ds) ∧
      (∀ k, StoreOp.deleteBlob k ∉ linkPhaseOps (fun i => "linked-" ++ i)
          [(⟨"d1", "site-plan.pdf", "u1/k1", 10, "application/pdf"⟩ : DocumentInfo)]
          "intent-1") ∧
      (∀ n, (runOps (fun _ => false)
          ⟨[⟨"d1", "site-plan.pdf", "u1/k1", 10, "application/pdf", none⟩], ["u1/k1"]⟩
          ((linkPhaseOps (fun i => "linked-" ++ i)
              [⟨"d1", "site-plan.pdf", "u1/k1", 10, "application/pdf"⟩]
              "intent-1").take n)).blobs = ["u1/k1"])) :=
  ⟨⟨by decide, by decide⟩,
    linking_never_zero_create_before_delete (fun i => "linked-" ++ i)
      [⟨"d1", "site-plan.pdf", "u1/k1", 10, "application/pdf"⟩] "intent-1" (fun _ => false)
      ⟨[⟨"d1", "site-plan.pdf", "u1/k1", 10, "application/pdf", none⟩], ["u1/k1"]⟩
      (by decide) (by decide)⟩

theorem forall₂_linkDraftsToIntent (newId : String → String) (intentId : String)
    (drafts : List DocumentInfo) :
    List.Forall₂ (fun d r => r.filename = d.filename ∧ r.file_path = d.file_path ∧
        r.file_size = d.file_size ∧ r.mime_type = d.mime_type ∧
        r.intent_registration_id = some intentId)
      drafts (linkDraftsToIntent newId drafts intentId) := by
  induction drafts with
  | nil => exact List.Forall₂.nil
  | cons a t ih => exact List.Forall₂.cons ⟨rfl, rfl, rfl, rfl, rfl⟩ ih

/-- C3: when a submission succeeds with N pending draft documents of the
intent_draft category, the linked-document count reported to the user equals
N, and each newly created linked record carries the same storage key,
filename, size and mime type as its originating draft, with the new parent
id set. -/
theorem linked_count_and_fields_preserved (intentId userId : String) (newId : String → String)
    (form : IntentFormData) (deleteFails : String → Bool)
    (pendingDocuments : List DocumentInfo) (intentStore : List IntentRecord) (docs : DocState)
    (hdates : form.commencement_date < form.completion_date)
    (hne : pendingDocuments ≠ []) :
    (linkDraftsToIntent newId pendingDocuments intentId).length = pendingDocuments.length ∧
    List.Forall₂ (fun d r => r.filename = d.filename ∧ r.file_path = d.file_path ∧
        r.file_size = d.file_size ∧ r.mime_type = d.mime_type ∧
        r.intent_registration_id = some intentId)
      pendingDocuments (linkDraftsToIntent newId pendingDocuments intentId) ∧
    (⟨"Documents Linked",
        toString pendingDocuments.length ++ " document(s) linked to this intent.", false⟩ :
      Toast) ∈
      (handleSubmit intentId userId newId form true deleteFails pendingDocuments
        intentStore docs).toasts := by
  have hge : ¬ form.commencement_date ≥ form.completion_date := by omega
  have hpos : 0 < pendingDocuments.length := List.length_pos.mpr hne
  refine ⟨by simp [linkDraftsToIntent],
    forall₂_linkDraftsToIntent newId intentId pendingDocuments, ?_⟩
  simp [handleSubmit, hge, hpos, linkDraftsToIntent]

/-- C4: when the parent record has been created and the link records written,
cleanup-delete failures of draft records are only logged and never surfaced
as a failure of the submission: the notifications are exactly those of a run
whose deletions all succeed, none of them is destructive, the submission
success toast and the linked-count toast are both shown, and each failing
draft deletion leaves a log entry. -/
theorem cleanup_delete_failure_not_blocking (intentId userId : String) (newId : String → String)
    (form : IntentFormData) (deleteFails : String → Bool)
    (pendingDocuments : List DocumentInfo) (intentStore : List IntentRecord) (docs : DocState)
    (hdates : form.commencement_date < form.completion_date)
    (hne : pendingDocuments ≠ []) :
    (handleSubmit intentId userId newId form true deleteFails pendingDocuments
        intentStore docs).result = Except.ok (mkIntentRecord intentId userId form) ∧
    (handleSubmit intentId userId newId form true deleteFails pendingDocuments
        intentStore docs).toasts =
      (handleSubmit intentId userId newId form true (fun _ => false) pendingDocuments
        intentStore docs).toasts ∧
    (∀ t ∈ (handleSubmit intentId userId newId form true deleteFails pendingDocuments
        intentStore docs).toasts, t.destructive = false) ∧
    (⟨"Intent Registration Submitted",
        "Your registration of intent has been submitted successfully. You can now upload supporting documents.",
        false⟩ : Toast) ∈
      (handleSubmit intentId userId newId form true deleteFails pendingDocuments
        intentStore docs).toasts ∧
    (∀ d ∈ pendingDocuments, deleteFails d.id = true →
      ("delete draft record failed: " ++ d.id) ∈
        (handleSubmit intentId userId newId form true deleteFails pendingDocuments
          intentStore docs).logs) := by
  have hge : ¬ form.commencement_date ≥ form.completion_date := by omega
  have hpos : 0 < pendingDocuments.length := List.length_pos.mpr hne
  refine ⟨?_, ?_, ?_, ?_, ?_⟩
  · simp [handleSubmit, hge]
  · simp [handleSubmit, hge]
  · intro t ht
    simp [handleSubmit, hge, hpos] at ht
    rcases ht with h | h <;> simp [h]
  · simp [handleSubmit, hge, hpos]
  · intro d hd hf
    simp [handleSubmit, hge]
    exact ⟨d, ⟨hd, hf⟩, rfl⟩

/-- Witness for C3 at a concrete input: one pending draft, valid dates. -/
theorem linked_count_and_fields_preserved_witness :
    ((10 : Int) < 20 ∧
      [(⟨"d1", "site-plan.pdf", "u1/k1", 10, "application/pdf"⟩ : DocumentInfo)] ≠ []) ∧
    ((linkDraftsToIntent (fun i => "linked-" ++ i)
        [⟨"d1", "site-plan.pdf", "u1/k1", 10, "application/pdf"⟩] "intent-1").length =
      [(⟨"d1", "site-plan.pdf", "u1/k1", 10, "application/pdf"⟩ : DocumentInfo)].length ∧
    List.Forall₂ (fun d r => r.filename = d.filename ∧ r.file_path = d.file_path ∧
        r.file_size = d.file_size ∧ r.mime_type = d.mime_type ∧
        r.intent_registration_id = some "intent-1")
      [(⟨"d1", "site-plan.pdf", "u1/k1", 10, "application/pdf"⟩ : DocumentInfo)]
      (linkDraftsToIntent (fun i => "linked-" ++ i)
        [⟨"d1", "site-plan.pdf", "u1/k1", 10, "application/pdf"⟩] "intent-1") ∧
    (⟨"Documents Linked",
        toString [(⟨"d1", "site-plan.pdf", "u1/k1", 10, "application/pdf"⟩ :
          DocumentInfo)].length ++ " document(s) linked to this intent.", false⟩ :
      Toast) ∈
      (handleSubmit "intent-1" "u1" (fun i => "linked-" ++ i)
        ⟨"e1", "Level 2", "act", "prep", 10, 20⟩ true (fun _ => false)
        [⟨"d1", "site-plan.pdf", "u1/k1", 10, "application/pdf"⟩] []
        ⟨[⟨"d1", "site-plan.pdf", "u1/k1", 10, "application/pdf", none⟩],
          ["u1/k1"]⟩).toasts) :=
  ⟨⟨by decide, by decide⟩,
    linked_count_and_fields_preserved "intent-1" "u1" (fun i => "linked-" ++ i)
      ⟨"e1", "Level 2", "act", "prep", 10, 20⟩ (fun _ => false)
      [⟨"d1", "site-plan.pdf", "u1/k1", 10, "application/pdf"⟩] []
      ⟨[⟨"d1", "site-plan.pdf", "u1/k1", 10, "application/pdf", none⟩], ["u1/k1"]⟩
      (by decide) (by decide)⟩

/-- Witness for C4 at a concrete input: one pending draft whose cleanup
delete fails; the submission is still reported successful. -/
theorem cleanup_delete_failure_not_blocking_witness :
    ((10 : Int) < 20 ∧
      [(⟨"d1", "site-plan.pdf", "u1/k1", 10, "application/pdf"⟩ : DocumentInfo)] ≠ []) ∧
    ((handleSubmit "intent-1" "u1" (fun i => "linked-" ++ i)
        ⟨"e1", "Level 2", "act", "prep", 10, 20⟩ true (fun i => i == "d1")
        [⟨"d1", "site-plan.pdf", "u1/k1", 10, "application/pdf"⟩] []
        ⟨[⟨"d1", "site-plan.pdf", "u1/k1", 10, "application/pdf", none⟩],
          ["u1/k1"]⟩).result =
      Except.ok (mkIntentRecord "intent-1" "u1" ⟨"e1", "Level 2", "act", "prep", 10, 20⟩) ∧
    (handleSubmit "intent-1" "u1" (fun i => "linked-" ++ i)
        ⟨"e1", "Level 2", "act", "prep", 10, 20⟩ true (fun i => i == "d1")
        [⟨"d1", "site-plan.pdf", "u1/k1", 10, "application/pdf"⟩] []
        ⟨[⟨"d1", "site-plan.pdf", "u1/k1", 10, "application/pdf", none⟩],
          ["u1/k1"]⟩).toasts =
      (handleSubmit "intent-1" "u1" (fun i => "linked-" ++ i)
        ⟨"e1", "Level 2", "act", "prep", 10, 20⟩ true (fun _ => false)
        [⟨"d1", "site-plan.pdf", "u1/k1", 10, "application/pdf"⟩] []
        ⟨[⟨"d1", "site-plan.pdf", "u1/k1", 10, "application/pdf", none⟩],
          ["u1/k1"]⟩).toasts ∧
    (∀ t ∈ (handleSubmit "intent-1" "u1" (fun i => "linked-" ++ i)
        ⟨"e1", "Level 2", "act", "prep", 10, 20⟩ true (fun i => i == "d1")
        [⟨"d1", "site-plan.pdf", "u1/k1", 10, "application/pdf"⟩] []
        ⟨[⟨"d1", "site-plan.pdf", "u1/k1", 10, "application/pdf", none⟩],
          ["u1/k1"]⟩).toasts, t.destructive = false) ∧
    (⟨"Intent Registration Submitted",
        "Your registration of intent has been submitted successfully. You can now upload supporting documents.",
        false⟩ : Toast) ∈
      (handleSubmit "intent-1" "u1" (fun i => "linked-" ++ i)
        ⟨"e1", "Level 2", "act", "prep", 10, 20⟩ true (fun i => i == "d1")
        [⟨"d1", "site-plan.pdf", "u1/k1", 10, "application/pdf"⟩] []
        ⟨[⟨"d1", "site-plan.pdf", "u1/k1", 10, "application/pdf", none⟩],
          ["u1/k1"]⟩).toasts ∧
    (∀ d ∈ [(⟨"d1", "site-plan.pdf", "u1/k1", 10, "application/pdf"⟩ : DocumentInfo)],
      (fun i => i == "d1") d.id = true →
      ("delete draft record failed: " ++ d.id) ∈
        (handleSubmit "intent-1" "u1" (fun i => "linked-" ++ i)
          ⟨"e1", "Level 2", "act", "prep", 10, 20⟩ true (fun i => i == "d1")
          [⟨"d1", "site-plan.pdf", "u1/k1", 10, "application/pdf"⟩] []
          ⟨[⟨"d1", "site-plan.pdf", "u1/k1", 10, "application/pdf", none⟩],
            ["u1/k1"]⟩).logs)) :=
  ⟨⟨by decide, by decide⟩,
    cleanup_delete_failure_not_blocking "intent-1" "u1" (fun i => "linked-" ++ i)
      ⟨"e1", "Level 2", "act", "prep", 10, 20⟩ (fun i => i == "d1")
      [⟨"d1", "site-plan.pdf", "u1/k1", 10, "application/pdf"⟩] []
      ⟨[⟨"d1", "site-plan.pdf", "u1/k1", 10, "application/pdf", none⟩], ["u1/k1"]⟩
      (by decide) (by decide)⟩

/-- C8: with 2 applications, 2 invoices and 3 notifications carrying 7
pairwise-distinct timestamps, the feed has exactly 6 items, strictly
descending by timestamp, all drawn from the merged sources, and every merged
item left out is strictly older than every item shown — regardless of
source; and when the invoice source fails, every application and
notification item still appears in the feed. -/
theorem activity_feed_top6_desc_partial_failure (nowMs : Int) (la : List AppRow)
    (li : List InvoiceRow) (ln : List NotificationRow)
    (hla : la.length = 2) (hli : li.length = 2) (hln : ln.length = 3)
    (hdist : List.Pairwise (fun x y => x.timestamp ≠ y.timestamp)
      (sourceItems nowMs (some la) (some li) (some ln))) :
    (fetchRecentActivities nowMs (some la) (some li) (some ln)).length = 6 ∧
    List.Pairwise (fun x y => y.timestamp < x.timestamp)
      (fetchRecentActivities nowMs (some la) (some li) (some ln)) ∧
    (∀ x ∈ fetchRecentActivities nowMs (some la) (some li) (some ln),
      x ∈ sourceItems nowMs (some la) (some li) (some ln)) ∧
    (∀ x ∈ sourceItems nowMs (some la) (some li) (some ln),
      x ∉ fetchRecentActivities nowMs (some la) (some li) (some ln) →
      ∀ y ∈ fetchRecentActivities nowMs (some la) (some li) (some ln),
        x.timestamp < y.timestamp) ∧
    (∀ x ∈ sourceItems nowMs (some la) none (some ln),
      x ∈ fetchRecentActivities nowMs (some la) none (some ln)) := by
  have hlen : (sourceItems nowMs (some la) (some li) (some ln)).length = 7 := by
    simp [sourceItems, hla, hli, hln]
  have hperm : (List.insertionSort tsGE (sourceItems nowMs (some la) (some li) (some ln))).Perm
      (sourceItems nowMs (some la) (some li) (some ln)) :=
    List.perm_insertionSort tsGE _
  have hsorted : List.Pairwise tsGE
      (List.insertionSort tsGE (sourceItems nowMs (some la) (some li) (some ln))) :=
    List.sorted_insertionSort tsGE _
  have hdist2 : List.Pairwise (fun x y => x.timestamp ≠ y.timestamp)
      (List.insertionSort tsGE (sourceItems nowMs (some la) (some li) (some ln))) :=
    (hperm.pairwise_iff (fun {_ _} h => Ne.symm h)).mpr hdist
  have hstrict : List.Pairwise (fun x y => y.timestamp < x.timestamp)
      (List.insertionSort tsGE (sourceItems nowMs (some la) (some li) (some ln))) := by
    refine (hsorted.and hdist2).imp ?_
    intro a b hab
    exact lt_of_le_of_ne hab.1 (Ne.symm hab.2)
  have hslen : (List.insertionSort tsGE
      (sourceItems nowMs (some la) (some li) (some ln))).length = 7 := by
    rw [hperm.length_eq, hlen]
  refine ⟨?_, ?_, ?_, ?_, ?_⟩
  · show ((List.insertionSort tsGE
        (sourceItems nowMs (some la) (some li) (some ln))).take 6).length = 6
    rw [List.length_take, hslen]
    omega
  · exact hstrict.sublist (List.take_sublist 6 _)
  · intro x hx
    exact hperm.subset ((List.take_sublist 6 _).subset hx)
  · intro x hxs hxf y hyf
    have hxsrt : x ∈ List.insertionSort tsGE (sourceItems nowMs (some la) (some li) (some ln)) :=
      hperm.symm.subset hxs
    have hdecomp := List.take_append_drop 6
      (List.insertionSort tsGE (sourceItems nowMs (some la) (some li) (some ln)))
    rw [← hdecomp] at hxsrt hstrict
    rcases List.mem_append.mp hxsrt with h | h
    · exact absurd h hxf
    · have hcross := (List.pairwise_append.mp hstrict).2.2
      exact hcross y hyf x h
  · intro x hx
    have hlen5 : (sourceItems nowMs (some la) none (some ln)).length = 5 := by
      simp [sourceItems, hla, hln]
    have hp5 : (List.insertionSort tsGE (sourceItems nowMs (some la) none (some ln))).Perm
        (sourceItems nowMs (some la) none (some ln)) :=
      List.perm_insertionSort tsGE _
    have hsl : (List.insertionSort tsGE
        (sourceItems nowMs (some la) none (some ln))).length ≤ 6 := by
      rw [hp5.length_eq, hlen5]
      omega
    show x ∈ (List.insertionSort tsGE (sourceItems nowMs (some la) none (some ln))).take 6
    rw [List.take_of_length_le hsl]
    exact hp5.symm.subset hx

/-- Witness for C8 at a concrete input: 2 applications (timestamps 7, 3),
2 invoices (6, 2) and 3 notifications (5, 4, 1). -/
theorem activity_feed_top6_desc_partial_failure_witness :
    (([(⟨"a1", "T1", "submitted", 7, none, none⟩ : AppRow),
        ⟨"a2", "T2", "draft", 3, some "APP-2", none⟩]).length = 2 ∧
      ([(⟨"i1", "INV-1", "pending", 50, 0, 6⟩ : InvoiceRow),
        ⟨"i2", "INV-2", "paid", 70, 0, 2⟩]).length = 2 ∧
      ([(⟨"n1", "N1", "M1", 5, false⟩ : NotificationRow),
        ⟨"n2", "N2", "M2", 4, true⟩, ⟨"n3", "N3", "M3", 1, false⟩]).length = 3 ∧
      List.Pairwise (fun x y => x.timestamp ≠ y.timestamp)
        (sourceItems 100
          (some [⟨"a1", "T1", "submitted", 7, none, none⟩,
            ⟨"a2", "T2", "draft", 3, some "APP-2", none⟩])
          (some [⟨"i1", "INV-1", "pending", 50, 0, 6⟩, ⟨"i2", "INV-2", "paid", 70, 0, 2⟩])
          (some [⟨"n1", "N1", "M1", 5, false⟩, ⟨"n2", "N2", "M2", 4, true⟩,
            ⟨"n3", "N3", "M3", 1, false⟩]))) ∧
    ((fetchRecentActivities 100
        (some [⟨"a1", "T1", "submitted", 7, none, none⟩,
          ⟨"a2", "T2", "draft", 3, some "APP-2", none⟩])
        (some [⟨"i1", "INV-1", "pending", 50, 0, 6⟩, ⟨"i2", "INV-2", "paid", 70, 0, 2⟩])
        (some [⟨"n1", "N1", "M1", 5, false⟩, ⟨"n2", "N2", "M2", 4, true⟩,
          ⟨"n3", "N3", "M3", 1, false⟩])).length = 6 ∧
    List.Pairwise (fun x y => y.timestamp < x.timestamp)
      (fetchRecentActivities 100
        (some [⟨"a1", "T1", "submitted", 7, none, none⟩,
          ⟨"a2", "T2", "draft", 3, some "APP-2", none⟩])
        (some [⟨"i1", "INV-1", "pending", 50, 0, 6⟩, ⟨"i2", "INV-2", "paid", 70, 0, 2⟩])
        (some [⟨"n1", "N1", "M1", 5, false⟩, ⟨"n2", "N2", "M2", 4, true⟩,
          ⟨"n3", "N3", "M3", 1, false⟩])) ∧
    (∀ x ∈ fetchRecentActivities 100
        (some [⟨"a1", "T1", "submitted", 7, none, none⟩,
          ⟨"a2", "T2", "draft", 3, some "APP-2", none⟩])
        (some [⟨"i1", "INV-1", "pending", 50, 0, 6⟩, ⟨"i2", "INV-2", "paid", 70, 0, 2⟩])
        (some [⟨"n1", "N1", "M1", 5, false⟩, ⟨"n2", "N2", "M2", 4, true⟩,
          ⟨"n3", "N3", "M3", 1, false⟩]),
      x ∈ sourceItems 100
        (some [⟨"a1", "T1", "submitted", 7, none, none⟩,
          ⟨"a2", "T2", "draft", 3, some "APP-2", none⟩])
        (some [⟨"i1", "INV-1", "pending", 50, 0, 6⟩, ⟨"i2", "INV-2", "paid", 70, 0, 2⟩])
        (some [⟨"n1", "N1", "M1", 5, false⟩, ⟨"n2", "N2", "M2", 4, true⟩,
          ⟨"n3", "N3", "M3", 1, false⟩])) ∧
    (∀ x ∈ sourceItems 100
        (some [⟨"a1", "T1", "submitted", 7, none, none⟩,
          ⟨"a2", "T2", "draft", 3, some "APP-2", none⟩])
        (some [⟨"i1", "INV-1", "pending", 50, 0, 6⟩, ⟨"i2", "INV-2", "paid", 70, 0, 2⟩])
        (some [⟨"n1", "N1", "M1", 5, false⟩, ⟨"n2", "N2", "M2", 4, true⟩,
          ⟨"n3", "N3", "M3", 1, false⟩]),
      x ∉ fetchRecentActivities 100
        (some [⟨"a1", "T1", "submitted", 7, none, none⟩,
          ⟨"a2", "T2", "draft", 3, some "APP-2", none⟩])
        (some [⟨"i1", "INV-1", "pending", 50, 0, 6⟩, ⟨"i2", "INV-2", "paid", 70, 0, 2⟩])
        (some [⟨"n1", "N1", "M1", 5, false⟩, ⟨"n2", "N2", "M2", 4, true⟩,
          ⟨"n3", "N3", "M3", 1, false⟩]) →
      ∀ y ∈ fetchRecentActivities 100
        (some [⟨"a1", "T1", "submitted", 7, none, none⟩,
          ⟨"a2", "T2", "draft", 3, some "APP-2", none⟩])
        (some [⟨"i1", "INV-1", "pending", 50, 0, 6⟩, ⟨"i2", "INV-2", "paid", 70, 0, 2⟩])
        (some [⟨"n1", "N1", "M1", 5, false⟩, ⟨"n2", "N2", "M2", 4, true⟩,
          ⟨"n3", "N3", "M3", 1, false⟩]),
        x.timestamp < y.timestamp) ∧
    (∀ x ∈ sourceItems 100
        (some [⟨"a1", "T1", "submitted", 7, none, none⟩,
          ⟨"a2", "T2", "draft", 3, some "APP-2", none⟩])
        none
        (some [⟨"n1", "N1", "M1", 5, false⟩, ⟨"n2", "N2", "M2", 4, true⟩,
          ⟨"n3", "N3", "M3", 1, false⟩]),
      x ∈ fetchRecentActivities 100
        (some [⟨"a1", "T1", "submitted", 7, none, none⟩,
          ⟨"a2", "T2", "draft", 3, some "APP-2", none⟩])
        none
        (some [⟨"n1", "N1", "M1", 5, false⟩, ⟨"n2", "N2", "M2", 4, true⟩,
          ⟨"n3", "N3", "M3", 1, false⟩]))) :=
  ⟨⟨by decide, by decide, by decide, by decide⟩,
    activity_feed_top6_desc_partial_failure 100
      [⟨"a1", "T1", "submitted", 7, none, none⟩, ⟨"a2", "T2", "draft", 3, some "APP-2", none⟩]
      [⟨"i1", "INV-1", "pending", 50, 0, 6⟩, ⟨"i2", "INV-2", "paid", 70, 0, 2⟩]
      [⟨"n1", "N1", "M1", 5, false⟩, ⟨"n2", "N2", "M2", 4, true⟩, ⟨"n3", "N3", "M3", 1, false⟩]
      (by decide) (by decide) (by decide) (by decide)⟩
